import Mathlib

/-!
Shallow embedding of the `node_runtime` crate
(`crates/node_runtime/src/node_runtime.rs`): the managed Node.js
acquisition and execution layer.  Filesystem, network and subprocess
outcomes are passed in explicitly; paths are lists of components.
-/

namespace NodeRuntime

/-- A filesystem path, as its list of components. -/
abbrev FsPath := List String

/-- Renders a path for use as a process argument, joining components. -/
def pathStr : FsPath → String
  | [] => ""
  | [c] => c
  | c :: rest => c ++ "/" ++ pathStr rest

/-- The pinned Node.js version (`const VERSION` in the source). -/
def VERSION : String := "v22.5.1"

/-- `const NODE_PATH`: relative path of the node binary, per `cfg(windows)`. -/
def NODE_PATH (os : String) : FsPath :=
  if os = "windows" then ["node.exe"] else ["bin", "node"]

/-- `const NPM_PATH`: relative path of the npm entry point, per `cfg(windows)`. -/
def NPM_PATH (os : String) : FsPath :=
  if os = "windows" then ["node_modules", "npm", "bin", "npm-cli.js"]
  else ["bin", "npm"]

/-- `NodeRuntimeSettings`: three optional override paths. -/
structure NodeRuntimeSettings where
  node : Option FsPath := none
  npm : Option FsPath := none
  cache : Option FsPath := none
deriving DecidableEq, Repr

/-- `NodePaths`: the resolved install layout. -/
structure NodePaths where
  node : FsPath
  npm : FsPath
  cache : FsPath
deriving DecidableEq, Repr

/-- `NodePaths::user_rc`. -/
def NodePaths.user_rc (p : NodePaths) : FsPath := p.cache ++ ["blank_user_npmrc"]

/-- `NodePaths::global_rc`. -/
def NodePaths.global_rc (p : NodePaths) : FsPath := p.cache ++ ["blank_global_npmrc"]

/-- A subprocess invocation under construction (`smol::process::Command`):
the program, arguments in order, whether `env_clear` was called, the
explicitly set environment variables, and the working directory. -/
structure Command where
  program : String
  args : List String
  envCleared : Bool
  env : List (String × String)
  currentDir : Option String := none
deriving DecidableEq, Repr

/-- `NodePaths::create_node_command`: new command on the node binary with
`env_clear()` applied. -/
def NodePaths.create_node_command (p : NodePaths) : Command :=
  { program := pathStr p.node, args := [], envCleared := true, env := [] }

/-- `NodePaths::create_npm_command`: the node command plus the npm entry
point and the pinned `--cache`, `--userconfig`, `--globalconfig` arguments. -/
def NodePaths.create_npm_command (p : NodePaths) : Command :=
  let c := p.create_node_command
  { c with
    args := c.args ++
      [pathStr p.npm,
       "--cache", pathStr p.cache,
       "--userconfig", pathStr p.user_rc,
       "--globalconfig", pathStr p.global_rc] }

/-- The three pinned configuration arguments of `create_npm_command`,
in order, with their values. -/
def pinnedConfigArgs (p : NodePaths) : List String :=
  ["--cache", pathStr p.cache,
   "--userconfig", pathStr p.user_rc,
   "--globalconfig", pathStr p.global_rc]

/-! ## Platform resolution (`install_if_needed`, lines 142-153) -/

/-- The OS-token match in `install_if_needed`. -/
def resolveOs (os : String) : Except String String :=
  if os = "macos" then .ok "darwin"
  else if os = "linux" then .ok "linux"
  else if os = "windows" then .ok "win"
  else .error ("Running on unsupported os: " ++ os)

/-- The architecture-token match in `install_if_needed`. -/
def resolveArch (arch : String) : Except String String :=
  if arch = "x86_64" then .ok "x64"
  else if arch = "aarch64" then .ok "arm64"
  else .error ("Running on unsupported architecture: " ++ arch)

/-- `enum ArchiveType`. -/
inductive ArchiveType where
  | tarGz
  | zip
deriving DecidableEq, Repr

/-- The archive-format match in `install_if_needed` (lines 200-204). -/
def archiveTypeFor (os : String) : Except String ArchiveType :=
  if os = "macos" then .ok .tarGz
  else if os = "linux" then .ok .tarGz
  else if os = "windows" then .ok .zip
  else .error ("Running on unsupported os: " ++ os)

/-- The file extension chosen for each archive type (lines 206-212). -/
def extensionFor : ArchiveType → String
  | .tarGz => "tar.gz"
  | .zip => "zip"

/-! ## Semantic versions (external `semver` crate)

`should_install_npm_package` parses version strings with the external
`semver` crate.  It is modelled here on core `major.minor.patch` version
strings (prerelease and build metadata are outside this development). -/

/-- A parsed core semantic version. -/
structure SemVersion where
  major : Nat
  minor : Nat
  patch : Nat
deriving DecidableEq, Repr

/-- Accumulates a decimal digit list into a number. -/
def digitsToNat : List Char → Nat → Nat
  | [], acc => acc
  | c :: rest, acc => digitsToNat rest (acc * 10 + (c.toNat - 48))

/-- Parses one numeric identifier: nonempty, digits only, no leading zero. -/
def parseNumericIdent (cs : List Char) : Option Nat :=
  match cs with
  | [] => none
  | c :: rest =>
    if ¬ (c :: rest).all Char.isDigit then none
    else if c = '0' ∧ rest ≠ [] then none
    else some (digitsToNat (c :: rest) 0)

/-- Splits a character list on the dot separator. -/
def splitOnDot : List Char → List (List Char)
  | [] => [[]]
  | c :: rest =>
    if c = '.' then [] :: splitOnDot rest
    else
      match splitOnDot rest with
      | [] => [[c]]
      | h :: t => (c :: h) :: t

/-- Models `semver::Version::parse` on core `major.minor.patch` strings. -/
def semverParse (s : String) : Option SemVersion :=
  match splitOnDot s.data with
  | [a, b, c] => do
    let major ← parseNumericIdent a
    let minor ← parseNumericIdent b
    let patch ← parseNumericIdent c
    pure ⟨major, minor, patch⟩
  | _ => none

/-- Strict order on core semantic versions (lexicographic). -/
def semVerLt (a b : SemVersion) : Bool :=
  if a.major < b.major then true
  else if b.major < a.major then false
  else if a.minor < b.minor then true
  else if b.minor < a.minor then false
  else decide (a.patch < b.patch)

/-! ## `should_install_npm_package` (trait default method, lines 83-114) -/

/-- Outcomes of the I/O the decision consults: whether
`fs::metadata(local_executable_path)` succeeds, and the result of
`npm_package_installed_version`. -/
structure ShouldInstallEnv where
  execExists : Bool
  installedLookup : Except String (Option String)

/-- `.log_err().flatten()` applied to the installed-version lookup:
an error logs to `None`, then the nested option is flattened. -/
def logErrFlatten : Except String (Option String) → Option String
  | .error _ => none
  | .ok v => v

/-- `NodeRuntime::should_install_npm_package`: install when the executable
is missing, the installed-version lookup fails or finds nothing, either
version string fails to parse, or installed < latest. -/
def should_install_npm_package (env : ShouldInstallEnv)
    (latest_version : String) : Bool :=
  if ¬ env.execExists then true
  else
    match logErrFlatten env.installedLookup with
    | none => true
    | some installedStr =>
      match semverParse installedStr with
      | none => true
      | some installed =>
        match semverParse latest_version with
        | none => true
        | some latest => semVerLt installed latest

/-! ## `npm_package_latest_version` (lines 358-381) -/

/-- `NpmInfoDistTags`. -/
structure NpmInfoDistTags where
  latest : Option String
deriving DecidableEq, Repr

/-- `NpmInfo`: the parsed registry response. -/
structure NpmInfo where
  dist_tags : NpmInfoDistTags
  versions : List String
deriving DecidableEq, Repr

/-- The post-parse selection in `npm_package_latest_version`:
`info.dist_tags.latest.or_else(|| info.versions.pop()).ok_or_else(...)`
(`Vec::pop` removes and returns the LAST element). -/
def npm_package_latest_version (name : String) (info : NpmInfo) :
    Except String String :=
  match info.dist_tags.latest with
  | some v => .ok v
  | none =>
    match info.versions.getLast? with
    | some v => .ok v
    | none => .error ("no version found for npm package " ++ name)

/-! ## `npm_package_installed_version` (lines 383-411) -/

/-- Errors a file read can produce (`io::ErrorKind::NotFound` is the one
the source distinguishes). -/
inductive FsError where
  | notFound
  | other (msg : String)
deriving DecidableEq, Repr

/-- `RealNodeRuntime::npm_package_installed_version`: reads
`<dir>/node_modules/<name>/package.json`; not-found is `Ok(None)`, other
read errors and manifest-parse errors (`serde_json`) propagate, success is
`Some` of the declared version.  `readFile` stands for `File::open` plus
`read_to_string`; `parseManifestVersion` stands for deserializing the
`version` field of the manifest. -/
def npm_package_installed_version
    (readFile : FsPath → Except FsError String)
    (parseManifestVersion : String → Option String)
    (local_package_directory : FsPath) (name : String) :
    Except String (Option String) :=
  let package_json_path :=
    local_package_directory ++ ["node_modules", name, "package.json"]
  match readFile package_json_path with
  | .error .notFound => .ok none
  | .error (.other msg) => .error msg
  | .ok contents =>
    match parseManifestVersion contents with
    | none => .error "failed to deserialize package.json"
    | some v => .ok (some v)

/-! ## Proxy remapping (`run_npm_subcommand`, lines 299-310) -/

/-- Rust's `char::to_ascii_lowercase`: an ASCII uppercase letter is
replaced by its lowercase counterpart, all other characters unchanged. -/
def asciiLowerChar (ch : Char) : Char :=
  if 'A' ≤ ch ∧ ch ≤ 'Z' then Char.ofNat (ch.toNat + 32) else ch

/-- Rust's `str::to_ascii_lowercase`. -/
def toAsciiLowercase (s : String) : String := ⟨s.data.map asciiLowerChar⟩

/-- Tests whether the first list begins with the second. -/
def charsStartWith : List Char → List Char → Bool
  | _, [] => true
  | [], _ :: _ => false
  | c :: cs, p :: ps => c == p && charsStartWith cs ps

/-- Fuelled scanner behind `replaceStr`: replaces non-overlapping
occurrences of `pat` by `rep`, left to right. -/
def replaceFuel (pat rep : List Char) : Nat → List Char → List Char
  | _, [] => []
  | 0, cs => cs
  | fuel + 1, c :: cs =>
    if pat ≠ [] ∧ charsStartWith (c :: cs) pat then
      rep ++ replaceFuel pat rep fuel (List.drop (pat.length - 1) cs)
    else c :: replaceFuel pat rep fuel cs

/-- Rust's `str::replace`: every non-overlapping occurrence of `pat`,
scanned left to right, is replaced by `rep`. -/
def replaceStr (s pat rep : String) : String :=
  ⟨replaceFuel pat.data rep.data s.data.length s.data⟩

/-- The proxy transformation in `run_npm_subcommand`:
`proxy.to_string().to_ascii_lowercase().replace("localhost", "127.0.0.1")`. -/
def mapProxy (proxy : String) : String :=
  replaceStr (toAsciiLowercase proxy) "localhost" "127.0.0.1"

/-! ## `install_if_needed` (lines 133-237) -/

/-- One observable filesystem/network action taken by `install_if_needed`. -/
inductive Effect where
  | probeVersion (cmd : Command)
  | removeDirAll (p : FsPath)
  | createDir (p : FsPath)
  | httpGet (url : String)
  | unpackTarGz (dest : FsPath)
  | extractZip (dest : FsPath)
  | writeFile (p : FsPath)
deriving DecidableEq, Repr

/-- Outcomes of the I/O `install_if_needed` performs: the support
directory location, whether the `--version` probe reported a successful
exit (`valid`), and the results of directory creation, download and
unpacking. -/
structure InstallEnv where
  supportDir : FsPath
  probeOk : Bool
  createDirResult : Except String Unit
  downloadResult : Except String Unit
  unpackResult : Except String Unit

/-- The layout computed at lines 158-174: each component is the settings
override when present, else the default under
`<support-dir>/node/node-<version>-<os>-<arch>`. -/
def defaultLayout (os osTok archTok : String) (supportDir : FsPath)
    (settings : NodeRuntimeSettings) : NodePaths :=
  let folder_name := "node-" ++ VERSION ++ "-" ++ osTok ++ "-" ++ archTok
  let node_containing_dir := supportDir ++ ["node"]
  let node_dir := node_containing_dir ++ [folder_name]
  { node := settings.node.getD (node_dir ++ NODE_PATH os),
    npm := settings.npm.getD (node_dir ++ NPM_PATH os),
    cache := settings.cache.getD (node_dir ++ ["cache"]) }

/-- The validity-probe command: `create_npm_command` plus `--version`
(lines 176-182). -/
def probeCommand (paths : NodePaths) : Command :=
  let c := paths.create_npm_command
  { c with args := c.args ++ ["--version"] }

/-- The best-effort housekeeping of lines 232-234: ensure the cache
directory and the two blank RC files exist (results ignored). -/
def housekeepingEffects (paths : NodePaths) : List Effect :=
  [Effect.createDir paths.cache,
   Effect.writeFile paths.user_rc,
   Effect.writeFile paths.global_rc]

/-- The unpack step for each archive type (lines 221-228), which targets
the directory the archive is extracted into. -/
def unpackEffect : ArchiveType → FsPath → Effect
  | .tarGz, d => .unpackTarGz d
  | .zip, d => .extractZip d

/-- `RealNodeRuntime::install_if_needed`, after the settings drain: resolve
platform tokens, compute the layout from overrides or defaults, probe with
`--version`; when the probe fails, bail on an override, else wipe and
recreate `node_containing_dir`, download the archive and unpack it into
`node_containing_dir`; finally the best-effort housekeeping.  Returns the
result paired with the ordered trace of effects attempted. -/
def install_if_needed (os arch : String) (settings : NodeRuntimeSettings)
    (env : InstallEnv) : Except String NodePaths × List Effect :=
  match resolveOs os with
  | .error e => (.error e, [])
  | .ok osTok =>
    match resolveArch arch with
    | .error e => (.error e, [])
    | .ok archTok =>
      let has_override := settings.npm.isSome || settings.node.isSome
      let folder_name := "node-" ++ VERSION ++ "-" ++ osTok ++ "-" ++ archTok
      let node_containing_dir := env.supportDir ++ ["node"]
      let paths := defaultLayout os osTok archTok env.supportDir settings
      let trace0 := [Effect.probeVersion (probeCommand paths)]
      if env.probeOk then
        (.ok paths, trace0 ++ housekeepingEffects paths)
      else if has_override then
        (.error ("node override " ++ pathStr paths.node ++
          " could not be executed"), trace0)
      else
        let trace1 := trace0 ++
          [Effect.removeDirAll node_containing_dir,
           Effect.createDir node_containing_dir]
        match env.createDirResult with
        | .error e =>
          (.error ("error creating node containing dir: " ++ e), trace1)
        | .ok _ =>
          match archiveTypeFor os with
          | .error e => (.error e, trace1)
          | .ok archive_type =>
            let file_name := folder_name ++ "." ++ extensionFor archive_type
            let url := "https://nodejs.org/dist/" ++ VERSION ++ "/" ++ file_name
            let trace2 := trace1 ++ [Effect.httpGet url]
            match env.downloadResult with
            | .error e =>
              (.error ("error downloading Node binary tarball: " ++ e), trace2)
            | .ok _ =>
              let trace3 := trace2 ++
                [unpackEffect archive_type node_containing_dir]
              match env.unpackResult with
              | .error e => (.error e, trace3)
              | .ok _ => (.ok paths, trace3 ++ housekeepingEffects paths)

/-! ## Configuration channel (lines 117-138, 247-249) -/

/-- The state behind the settings lock: the authoritative settings value
and the queue of pending updates published via `configure`. -/
structure RuntimeState where
  settings : NodeRuntimeSettings
  pending : List NodeRuntimeSettings
deriving DecidableEq, Repr

/-- `RealNodeRuntime::configure`: publish onto the queue; the authoritative
settings value is not touched. -/
def configure (st : RuntimeState) (s : NodeRuntimeSettings) : RuntimeState :=
  { st with pending := st.pending ++ [s] }

/-- The drain loop at the top of `install_if_needed` (lines 136-138):
each queued update overwrites the settings wholesale, in arrival order. -/
def drainSettings (st : RuntimeState) : RuntimeState :=
  { settings := st.pending.foldl (fun _ p => p) st.settings, pending := [] }

/-- `install_if_needed` including its settings drain: the layout is
computed from the drained settings, and the post-call state is the
drained state. -/
def install_if_needed_full (os arch : String) (st : RuntimeState)
    (env : InstallEnv) :
    (Except String NodePaths × List Effect) × RuntimeState :=
  ((install_if_needed os arch (drainSettings st).settings env),
   drainSettings st)

/-! ## `run_npm_subcommand` (lines 251-356) -/

/-- A completed subprocess (`std::process::Output`): exit-status success
flag and decoded standard streams. -/
structure ProcOutput where
  success : Bool
  stdout : String
  stderr : String
deriving DecidableEq, Repr

/-- The command built by one `attempt` closure for the given layout,
`PATH` value, subcommand, arguments, optional working directory and
optional proxy (lines 289-310). -/
def buildNpmSubcommandCommand (paths : NodePaths) (envPath : String)
    (subcommand : String) (args : List String)
    (directory : Option FsPath) (proxy : Option String) : Command :=
  let c := paths.create_npm_command
  let c := { c with env := c.env ++ [("PATH", envPath)] }
  let c := { c with args := c.args ++ [subcommand] ++ args }
  let c :=
    match directory with
    | some d =>
      { c with currentDir := some (pathStr d),
               args := c.args ++ ["--prefix", pathStr d] }
    | none => c
  match proxy with
  | some p => { c with args := c.args ++ ["--proxy", mapProxy p] }
  | none => c

/-- `RealNodeRuntime::run_npm_subcommand` given the outcomes the two
possible `attempt` invocations would produce (an `Err` is any failure
before a process `Output` exists).  Returns the result and how many
attempts were made: run the first attempt; on error run the second; if
that errors too, fail naming the subcommand; a produced output with a
non-success status becomes the non-zero-exit error embedding stdout and
stderr. -/
def run_npm_subcommand (subcommand : String)
    (attempt1 attempt2 : Except String ProcOutput) :
    Except String ProcOutput × Nat :=
  let step :=
    match attempt1 with
    | .ok o => (Except.ok o, 1)
    | .error _ =>
      match attempt2 with
      | .ok o => (Except.ok o, 2)
      | .error e2 =>
        (Except.error ("failed to launch npm subcommand " ++ subcommand ++
          " subcommand\nerr: " ++ e2), 2)
  match step with
  | (.error e, n) => (.error e, n)
  | (.ok o, n) =>
    if ¬ o.success then
      (.error ("failed to execute npm " ++ subcommand ++
        " subcommand:\nstdout: " ++ o.stdout ++ "\nstderr: " ++ o.stderr), n)
    else (.ok o, n)

/-! ## Theorems -/

/-- C5: `should_install_npm_package` returns true when the local executable
is absent; true when the installed-version lookup errors or finds no
installed version; true when either version string fails to parse as a
semantic version; and otherwise returns exactly whether the installed
version is strictly below the latest.  The decision is a total boolean:
every internal failure defaults to true, never to an error. -/
theorem should_install_decision (env : ShouldInstallEnv) (latest : String) :
    (env.execExists = false → should_install_npm_package env latest = true) ∧
    (logErrFlatten env.installedLookup = none →
      should_install_npm_package env latest = true) ∧
    (∀ s, logErrFlatten env.installedLookup = some s → semverParse s = none →
      should_install_npm_package env latest = true) ∧
    (semverParse latest = none → should_install_npm_package env latest = true) ∧
    (∀ s vi vl, env.execExists = true →
      logErrFlatten env.installedLookup = some s →
      semverParse s = some vi → semverParse latest = some vl →
      should_install_npm_package env latest = semVerLt vi vl) := by
  refine ⟨?_, ?_, ?_, ?_, ?_⟩
  · intro h; simp [should_install_npm_package, h]
  · intro h
    by_cases he : env.execExists
    · simp [should_install_npm_package, he, h]
    · simp [should_install_npm_package, he]
  · intro s hs hp
    by_cases he : env.execExists
    · simp [should_install_npm_package, he, hs, hp]
    · simp [should_install_npm_package, he]
  · intro hl
    by_cases he : env.execExists
    · unfold should_install_npm_package
      simp only [he]
      cases hlk : logErrFlatten env.installedLookup with
      | none => simp
      | some s =>
        cases hp : semverParse s with
        | none => simp [hp]
        | some vi => simp [hp, hl]
    · simp [should_install_npm_package, he]
  · intro s vi vl he hs hpi hpl
    simp [should_install_npm_package, he, hs, hpi, hpl]

/-- Witness for C5: the specification's example, installed 1.0.0 against
latest 1.0.1, reaches the semantic-version comparison and installs. -/
theorem should_install_decision_witness :
    should_install_npm_package ⟨true, .ok (some "1.0.0")⟩ "1.0.1" =
      semVerLt ⟨1, 0, 0⟩ ⟨1, 0, 1⟩ :=
  (should_install_decision ⟨true, .ok (some "1.0.0")⟩ "1.0.1").2.2.2.2
    "1.0.0" ⟨1, 0, 0⟩ ⟨1, 0, 1⟩ rfl rfl (by decide) (by decide)

/-- C6: the registry-response selection returns the latest dist-tag when
present, else the last entry of the registry-supplied versions list, else
a not-found error naming the package. -/
theorem npm_latest_version_selection (name : String) (info : NpmInfo) :
    (∀ v, info.dist_tags.latest = some v →
      npm_package_latest_version name info = .ok v) ∧
    (∀ v, info.dist_tags.latest = none → info.versions.getLast? = some v →
      npm_package_latest_version name info = .ok v) ∧
    (info.dist_tags.latest = none → info.versions = [] →
      npm_package_latest_version name info =
        .error ("no version found for npm package " ++ name)) := by
  refine ⟨?_, ?_, ?_⟩ <;> intros <;> simp_all [npm_package_latest_version]

/-- Witness for C6: with no dist-tag, the last version wins. -/
theorem npm_latest_version_selection_witness :
    npm_package_latest_version "left-pad" ⟨⟨none⟩, ["1.0.0", "1.3.0"]⟩ =
      .ok "1.3.0" :=
  (npm_latest_version_selection "left-pad" ⟨⟨none⟩, ["1.0.0", "1.3.0"]⟩).2.1
    "1.3.0" rfl rfl

/-- C7: reading the installed version of a package treats a missing
manifest as `Ok none`; any other read failure, and a manifest-parse
failure, propagate as errors; on success the declared version string is
returned. -/
theorem installed_version_read
    (readFile : FsPath → Except FsError String)
    (parseManifestVersion : String → Option String)
    (dir : FsPath) (name : String) :
    (readFile (dir ++ ["node_modules", name, "package.json"]) =
        .error .notFound →
      npm_package_installed_version readFile parseManifestVersion dir name =
        .ok none) ∧
    (∀ msg, readFile (dir ++ ["node_modules", name, "package.json"]) =
        .error (.other msg) →
      npm_package_installed_version readFile parseManifestVersion dir name =
        .error msg) ∧
    (∀ contents, readFile (dir ++ ["node_modules", name, "package.json"]) =
        .ok contents → parseManifestVersion contents = none →
      npm_package_installed_version readFile parseManifestVersion dir name =
        .error "failed to deserialize package.json") ∧
    (∀ contents v, readFile (dir ++ ["node_modules", name, "package.json"]) =
        .ok contents → parseManifestVersion contents = some v →
      npm_package_installed_version readFile parseManifestVersion dir name =
        .ok (some v)) := by
  refine ⟨?_, ?_, ?_, ?_⟩ <;> intros <;>
    simp_all [npm_package_installed_version]

/-- Witness for C7: a nonexistent package directory yields `none`, not an
error. -/
theorem installed_version_read_witness :
    npm_package_installed_version (fun _ => .error .notFound) (fun _ => none)
      ["proj"] "lodash" = .ok none :=
  (installed_version_read (fun _ => .error .notFound) (fun _ => none)
    ["proj"] "lodash").1 rfl

/-- C10: a configured proxy is passed as a trailing `--proxy` argument
whose value is the proxy URL ASCII-lowercased in full and with every
occurrence of "localhost" replaced by "127.0.0.1"; in particular
`http://localhost:10809` becomes `http://127.0.0.1:10809`, and uppercase
characters anywhere in the URL are lowercased in what the subprocess
receives. -/
theorem proxy_remap (paths : NodePaths) (envPath subcommand : String)
    (args : List String) (directory : Option FsPath) (proxyUrl : String) :
    (buildNpmSubcommandCommand paths envPath subcommand args directory
        (some proxyUrl)).args =
      (buildNpmSubcommandCommand paths envPath subcommand args directory
        none).args ++ ["--proxy", mapProxy proxyUrl] ∧
    mapProxy proxyUrl =
      replaceStr (toAsciiLowercase proxyUrl) "localhost" "127.0.0.1" ∧
    mapProxy "http://localhost:10809" = "http://127.0.0.1:10809" ∧
    mapProxy "HTTP://LocalHost:10809/Path" = "http://127.0.0.1:10809/path" := by
  refine ⟨?_, rfl, by decide, by decide⟩
  cases directory <;> simp [buildNpmSubcommandCommand]

/-- C2: `run_npm_subcommand` makes at most two attempts; a second attempt
happens exactly when the first fails before producing an `Output`; a
spawn-level failure followed by a successful second attempt returns the
second attempt's output; two failures yield the fatal error naming the
subcommand; and a spawned process exiting non-zero is not retried and
yields the fatal error embedding decoded stdout and stderr. -/
theorem run_npm_subcommand_retry (subcommand : String)
    (a1 a2 : Except String ProcOutput) :
    ((run_npm_subcommand subcommand a1 a2).2 ≤ 2) ∧
    (∀ o, a1 = .ok o → (run_npm_subcommand subcommand a1 a2).2 = 1) ∧
    (∀ e, a1 = .error e → (run_npm_subcommand subcommand a1 a2).2 = 2) ∧
    (∀ e o, a1 = .error e → a2 = .ok o → o.success = true →
      run_npm_subcommand subcommand a1 a2 = (.ok o, 2)) ∧
    (∀ e1 e2, a1 = .error e1 → a2 = .error e2 →
      run_npm_subcommand subcommand a1 a2 =
        (.error ("failed to launch npm subcommand " ++ subcommand ++
          " subcommand\nerr: " ++ e2), 2)) ∧
    (∀ o, a1 = .ok o → o.success = false →
      run_npm_subcommand subcommand a1 a2 =
        (.error ("failed to execute npm " ++ subcommand ++
          " subcommand:\nstdout: " ++ o.stdout ++ "\nstderr: " ++ o.stderr),
         1)) ∧
    (∀ e o, a1 = .error e → a2 = .ok o → o.success = false →
      run_npm_subcommand subcommand a1 a2 =
        (.error ("failed to execute npm " ++ subcommand ++
          " subcommand:\nstdout: " ++ o.stdout ++ "\nstderr: " ++ o.stderr),
         2)) := by
  refine ⟨?_, ?_, ?_, ?_, ?_, ?_, ?_⟩
  · cases a1 with
    | ok o => by_cases h : o.success <;> simp [run_npm_subcommand, h]
    | error e =>
      cases a2 with
      | ok o => by_cases h : o.success <;> simp [run_npm_subcommand, h]
      | error e2 => simp [run_npm_subcommand]
  · intro o h; subst h
    by_cases hs : o.success <;> simp [run_npm_subcommand, hs]
  · intro e h; subst h
    cases a2 with
    | ok o => by_cases hs : o.success <;> simp [run_npm_subcommand, hs]
    | error e2 => simp [run_npm_subcommand]
  · intro e o h1 h2 hs; subst h1; subst h2; simp [run_npm_subcommand, hs]
  · intro e1 e2 h1 h2; subst h1; subst h2; simp [run_npm_subcommand]
  · intro o h hs; subst h; simp [run_npm_subcommand, hs]
  · intro e o h1 h2 hs; subst h1; subst h2; simp [run_npm_subcommand, hs]

/-- Witness for C2: a first-attempt spawn failure followed by a successful
second attempt returns the second attempt's output. -/
theorem run_npm_subcommand_retry_witness :
    run_npm_subcommand "install" (.error "spawn failed")
      (.ok ⟨true, "ok", ""⟩) = (.ok ⟨true, "ok", ""⟩, 2) :=
  (run_npm_subcommand_retry "install" (.error "spawn failed")
    (.ok ⟨true, "ok", ""⟩)).2.2.2.1 "spawn failed" ⟨true, "ok", ""⟩ rfl rfl rfl

/-- Replacing-fold characterization: draining a queue of wholesale updates
installs the last element when the queue is nonempty. -/
theorem foldl_replace_getLast (init : NodeRuntimeSettings)
    (l : List NodeRuntimeSettings) :
    l.foldl (fun _ p => p) init = l.getLast?.getD init := by
  induction l generalizing init with
  | nil => rfl
  | cons a t ih =>
    cases t with
    | nil => rfl
    | cons b u =>
      rw [List.foldl_cons, ih a, List.getLast?_cons_cons]
      cases hx : (b :: u).getLast? with
      | none => simp at hx
      | some x => rfl

/-- C4: `configure` only appends to the pending queue and leaves the
authoritative settings untouched; the drain at the top of
`install_if_needed` empties the queue in arrival order, installing the
last published value wholesale; a value published after a call's drain
leaves that call's effective settings untouched and is picked up by the
next drain; and the operation's layout is computed from exactly the
drained (last-published) settings. -/
theorem configure_queue_semantics (st : RuntimeState)
    (s : NodeRuntimeSettings) (os arch : String) (env : InstallEnv) :
    (configure st s).settings = st.settings ∧
    (configure st s).pending = st.pending ++ [s] ∧
    (drainSettings st).settings = st.pending.getLast?.getD st.settings ∧
    (drainSettings st).pending = [] ∧
    (configure (drainSettings st) s).settings = (drainSettings st).settings ∧
    (drainSettings (configure (drainSettings st) s)).settings = s ∧
    (install_if_needed_full os arch st env).1 =
      install_if_needed os arch (st.pending.getLast?.getD st.settings) env := by
  refine ⟨rfl, rfl, foldl_replace_getLast st.settings st.pending, rfl, rfl,
    rfl, ?_⟩
  simp [install_if_needed_full, drainSettings,
    foldl_replace_getLast st.settings st.pending]

/-- C9: every package-manager invocation this layer constructs — the
`--version` validity probe and every `run_npm_subcommand` command — has
the inherited environment cleared (only explicitly set variables remain)
and carries the pinned `--cache`, `--userconfig`, `--globalconfig`
arguments pointing at the private cache directory and its two blank RC
files. -/
theorem npm_commands_isolated (paths : NodePaths)
    (envPath subcommand : String) (args : List String)
    (directory : Option FsPath) (proxy : Option String) :
    (paths.create_npm_command).envCleared = true ∧
    pinnedConfigArgs paths <:+: (paths.create_npm_command).args ∧
    (probeCommand paths).envCleared = true ∧
    pinnedConfigArgs paths <:+: (probeCommand paths).args ∧
    (buildNpmSubcommandCommand paths envPath subcommand args directory
      proxy).envCleared = true ∧
    (buildNpmSubcommandCommand paths envPath subcommand args directory
      proxy).env = [("PATH", envPath)] ∧
    pinnedConfigArgs paths <:+:
      (buildNpmSubcommandCommand paths envPath subcommand args directory
        proxy).args := by
  refine ⟨rfl, ⟨[pathStr paths.npm], [], by
    simp [NodePaths.create_npm_command, NodePaths.create_node_command,
      pinnedConfigArgs]⟩, rfl, ⟨[pathStr paths.npm], ["--version"], by
    simp [probeCommand, NodePaths.create_npm_command,
      NodePaths.create_node_command, pinnedConfigArgs]⟩, ?_, ?_, ?_⟩
  · cases directory <;> cases proxy <;> rfl
  · cases directory <;> cases proxy <;> rfl
  · cases directory with
    | none =>
      cases proxy with
      | none =>
        exact ⟨[pathStr paths.npm], subcommand :: args, by
          simp [buildNpmSubcommandCommand, NodePaths.create_npm_command,
            NodePaths.create_node_command, pinnedConfigArgs]⟩
      | some p =>
        exact ⟨[pathStr paths.npm],
          subcommand :: (args ++ ["--proxy", mapProxy p]), by
          simp [buildNpmSubcommandCommand, NodePaths.create_npm_command,
            NodePaths.create_node_command, pinnedConfigArgs]⟩
    | some d =>
      cases proxy with
      | none =>
        exact ⟨[pathStr paths.npm],
          subcommand :: (args ++ ["--prefix", pathStr d]), by
          simp [buildNpmSubcommandCommand, NodePaths.create_npm_command,
            NodePaths.create_node_command, pinnedConfigArgs]⟩
      | some p =>
        exact ⟨[pathStr paths.npm],
          subcommand ::
            (args ++ ["--prefix", pathStr d, "--proxy", mapProxy p]), by
          simp [buildNpmSubcommandCommand, NodePaths.create_npm_command,
            NodePaths.create_node_command, pinnedConfigArgs]⟩

/-- A sample I/O environment: support dir `support`, failed probe, all
repair steps succeeding. -/
def sampleInstallEnv : InstallEnv :=
  { supportDir := ["support"], probeOk := false,
    createDirResult := .ok (), downloadResult := .ok (),
    unpackResult := .ok () }

/-- Sample settings with a node override. -/
def overrideSettings : NodeRuntimeSettings := { node := some ["opt", "mynode"] }

/-- The per-version install directory of the sample environment on
linux/x86_64. -/
def installDirLinux : FsPath := ["support", "node", "node-v22.5.1-linux-x64"]

/-- C8: an unsupported OS, and an unsupported architecture, each make
`install_if_needed` fail with the unsupported-platform error while the
effect trace stays empty: no filesystem or network I/O happens. -/
theorem unsupported_platform_no_effects (os arch : String)
    (s : NodeRuntimeSettings) (env : InstallEnv) :
    (os ≠ "macos" → os ≠ "linux" → os ≠ "windows" →
      install_if_needed os arch s env =
        (.error ("Running on unsupported os: " ++ os), [])) ∧
    ((os = "macos" ∨ os = "linux" ∨ os = "windows") →
      arch ≠ "x86_64" → arch ≠ "aarch64" →
      install_if_needed os arch s env =
        (.error ("Running on unsupported architecture: " ++ arch), [])) ∧
    (arch ≠ "x86_64" → arch ≠ "aarch64" →
      ∃ e, install_if_needed os arch s env = (.error e, [])) := by
  refine ⟨?_, ?_, ?_⟩
  · intro h1 h2 h3
    simp [install_if_needed, resolveOs, h1, h2, h3]
  · rintro (h | h | h) ha1 ha2 <;> subst h <;>
      simp [install_if_needed, resolveOs, resolveArch, ha1, ha2]
  · intro ha1 ha2
    by_cases h1 : os = "macos"
    · subst h1
      exact ⟨"Running on unsupported architecture: " ++ arch, by
        simp [install_if_needed, resolveOs, resolveArch, ha1, ha2]⟩
    by_cases h2 : os = "linux"
    · subst h2
      exact ⟨"Running on unsupported architecture: " ++ arch, by
        simp [install_if_needed, resolveOs, resolveArch, ha1, ha2]⟩
    by_cases h3 : os = "windows"
    · subst h3
      exact ⟨"Running on unsupported architecture: " ++ arch, by
        simp [install_if_needed, resolveOs, resolveArch, ha1, ha2]⟩
    · exact ⟨"Running on unsupported os: " ++ os, by
        simp [install_if_needed, resolveOs, h1, h2, h3]⟩

/-- Witness for C8: an unsupported OS fails with an empty trace. -/
theorem unsupported_platform_no_effects_witness :
    install_if_needed "freebsd" "x86_64" {} sampleInstallEnv =
      (.error ("Running on unsupported os: " ++ "freebsd"), []) :=
  (unsupported_platform_no_effects "freebsd" "x86_64" {} sampleInstallEnv).1
    (by decide) (by decide) (by decide)

/-- C3: with a node or npm override set and a failed validity probe,
`install_if_needed` fails with the override error, and the whole effect
trace is the probe alone — nothing is deleted, recreated, downloaded into
or written. -/
theorem override_probe_failure_no_touch (os arch osTok archTok : String)
    (s : NodeRuntimeSettings) (env : InstallEnv)
    (hos : resolveOs os = .ok osTok) (harch : resolveArch arch = .ok archTok)
    (hover : (s.npm.isSome || s.node.isSome) = true)
    (hprobe : env.probeOk = false) :
    install_if_needed os arch s env =
      (.error ("node override " ++
        pathStr (defaultLayout os osTok archTok env.supportDir s).node ++
        " could not be executed"),
       [Effect.probeVersion
         (probeCommand (defaultLayout os osTok archTok env.supportDir s))]) := by
  simp [install_if_needed, hos, harch, hover, hprobe]

/-- Witness for C3: a node override that fails its probe on macos/aarch64
produces the override error and only the probe effect. -/
theorem override_probe_failure_no_touch_witness :
    install_if_needed "macos" "aarch64" overrideSettings sampleInstallEnv =
      (.error ("node override " ++
        pathStr (defaultLayout "macos" "darwin" "arm64" ["support"]
          overrideSettings).node ++ " could not be executed"),
       [Effect.probeVersion
         (probeCommand (defaultLayout "macos" "darwin" "arm64" ["support"]
           overrideSettings))]) :=
  override_probe_failure_no_touch "macos" "aarch64" "darwin" "arm64"
    overrideSettings sampleInstallEnv rfl rfl rfl rfl

/-- C1 counterexample: on linux/x86_64 with no override, a failed probe and
a successful repair, no effect of the repair targets the per-version
install directory `<support-dir>/node/node-<version>-<os>-<arch>`: the
recursive delete, the recreation and the unpack all target the containing
directory `<support-dir>/node` instead. -/
theorem install_repair_not_install_dir :
    Effect.removeDirAll installDirLinux ∉
      (install_if_needed "linux" "x86_64" {} sampleInstallEnv).2 ∧
    Effect.createDir installDirLinux ∉
      (install_if_needed "linux" "x86_64" {} sampleInstallEnv).2 ∧
    Effect.unpackTarGz installDirLinux ∉
      (install_if_needed "linux" "x86_64" {} sampleInstallEnv).2 ∧
    Effect.removeDirAll ["support", "node"] ∈
      (install_if_needed "linux" "x86_64" {} sampleInstallEnv).2 ∧
    Effect.createDir ["support", "node"] ∈
      (install_if_needed "linux" "x86_64" {} sampleInstallEnv).2 ∧
    Effect.unpackTarGz ["support", "node"] ∈
      (install_if_needed "linux" "x86_64" {} sampleInstallEnv).2 := by
  decide

/-- C1 (amended): on a supported platform with no node/npm override and a
failed validity probe, `install_if_needed` deletes the CONTAINING
directory `<support-dir>/node` recursively (ignoring delete errors),
recreates it, selects tar.gz for macos/linux and zip for windows, builds
the download URL from the pinned version and the resolved OS/arch tokens,
and stream-unpacks the fetched archive into that containing directory
(the per-version install directory arises as the archive's top-level
folder), before the best-effort housekeeping. -/
theorem install_repair_plan (os arch osTok archTok : String)
    (archive_type : ArchiveType) (s : NodeRuntimeSettings) (env : InstallEnv)
    (hos : resolveOs os = .ok osTok) (harch : resolveArch arch = .ok archTok)
    (hat : archiveTypeFor os = .ok archive_type)
    (hnode : s.node = none) (hnpm : s.npm = none)
    (hprobe : env.probeOk = false)
    (hcd : env.createDirResult = .ok ()) (hdl : env.downloadResult = .ok ())
    (hup : env.unpackResult = .ok ()) :
    archiveTypeFor "macos" = .ok .tarGz ∧
    archiveTypeFor "linux" = .ok .tarGz ∧
    archiveTypeFor "windows" = .ok .zip ∧
    install_if_needed os arch s env =
      (.ok (defaultLayout os osTok archTok env.supportDir s),
       [Effect.probeVersion
          (probeCommand (defaultLayout os osTok archTok env.supportDir s)),
        Effect.removeDirAll (env.supportDir ++ ["node"]),
        Effect.createDir (env.supportDir ++ ["node"]),
        Effect.httpGet ("https://nodejs.org/dist/" ++ VERSION ++ "/" ++
          ("node-" ++ VERSION ++ "-" ++ osTok ++ "-" ++ archTok ++ "." ++
            extensionFor archive_type)),
        unpackEffect archive_type (env.supportDir ++ ["node"])] ++
       housekeepingEffects (defaultLayout os osTok archTok env.supportDir s)) := by
  refine ⟨rfl, rfl, rfl, ?_⟩
  simp [install_if_needed, hos, harch, hat, hnode, hnpm, hprobe, hcd, hdl,
    hup]

/-- Witness for C1 (amended): the full repair plan on linux/x86_64. -/
theorem install_repair_plan_witness :
    install_if_needed "linux" "x86_64" {} sampleInstallEnv =
      (.ok (defaultLayout "linux" "linux" "x64" ["support"] {}),
       [Effect.probeVersion
          (probeCommand (defaultLayout "linux" "linux" "x64" ["support"] {})),
        Effect.removeDirAll ["support", "node"],
        Effect.createDir ["support", "node"],
        Effect.httpGet
          "https://nodejs.org/dist/v22.5.1/node-v22.5.1-linux-x64.tar.gz",
        Effect.unpackTarGz ["support", "node"]] ++
       housekeepingEffects
         (defaultLayout "linux" "linux" "x64" ["support"] {})) :=
  (install_repair_plan "linux" "x86_64" "linux" "x64" .tarGz {}
    sampleInstallEnv rfl rfl rfl rfl rfl rfl rfl rfl rfl).2.2.2

end NodeRuntime
